import Mathlib

/-!
A verification development for the synthetic medical-data generator
(`data_generator.py`) and the analysis pipeline built on it
(`streamlit_app.py`).

The generator is embedded as a function of an explicit stream of raw
random draws `r : ℕ → ℝ`: the Python code draws from the process-wide
numpy global state, and each draw the code makes is mapped, in the exact
order the code makes it, to one position of the stream.  Uniform draws
`np.random.uniform(a, b)` are embedded as `a + (b - a) * u` applied to the
stream value `u`, and normal draws `np.random.normal(0, s)` as `s * g`
applied to the stream value `g`; no range assumption is placed on the
stream, so theorems quantified over `r` cover every possible seed.

Machine floats are embedded as real numbers; Python's `int()` truncation
toward zero and `round(x, k)` (round-half-to-even at `k` decimal places)
are embedded explicitly.
-/

namespace MedicalData

/-- `np.random.uniform a b` applied to a raw stream value `u`:
numpy computes `a + (b - a) * u` with `u` drawn from `[0, 1)`. -/
def unif (a b u : ℝ) : ℝ := a + (b - a) * u

/-- `np.random.normal mu sigma` applied to a raw standard-normal stream
value `g`: the draw is `mu + sigma * g`. -/
def normal (mu sigma g : ℝ) : ℝ := mu + sigma * g

/-- Python `int(x)`: truncation toward zero. -/
noncomputable def pyInt (x : ℝ) : ℤ := if 0 ≤ x then ⌊x⌋ else -⌊-x⌋

/-- Round to the nearest integer, halves to even (Python's `round`). -/
noncomputable def rhe (x : ℝ) : ℤ :=
  if Int.fract x = 1 / 2 then 2 * round (x / 2) else round x

/-- Python `round(x, k)`: round half-to-even at `k` decimal places. -/
noncomputable def pyRound (x : ℝ) (k : ℕ) : ℝ := (rhe (x * 10 ^ k) : ℝ) / 10 ^ k

/-- `np.clip x lo hi` (for `lo ≤ hi`): `min hi (max lo x)`. -/
noncomputable def clip (x lo hi : ℝ) : ℝ := min hi (max lo x)

/-- Gregorian leap-year test, as used by pandas timestamps. -/
def isLeap (y : ℕ) : Bool := (y % 4 == 0 && y % 100 != 0) || (y % 400 == 0)

/-- Number of days in year `y`. -/
def yearLength (y : ℕ) : ℕ := if isLeap y then 366 else 365

/-- Day-of-year (1-based) of the day `off` days after January 1 of year `y`. -/
def dayOfYearFrom (y off : ℕ) : ℕ :=
  if _h : off < yearLength y then off + 1
  else dayOfYearFrom (y + 1) (off - yearLength y)
termination_by off
decreasing_by
  have hy : 0 < yearLength y := by unfold yearLength; split <;> omega
  omega

/-- `pandas.Timestamp.dayofyear` of the date `off` days after 2023-01-01,
the hard-coded start of `pd.date_range` in `generate_medical_data`. -/
def dayOfYear (off : ℕ) : ℕ := dayOfYearFrom 2023 off

/-- `seasonal_factor = 1 + 0.1 * np.sin(2 * np.pi * date.dayofyear / 365)`
for the date `off` days after 2023-01-01. -/
noncomputable def seasonal (off : ℕ) : ℝ :=
  1 + 0.1 * Real.sin (2 * Real.pi * (dayOfYear off : ℝ) / 365)

/-- One row of the `regions` DataFrame: the static base profile of a region. -/
structure RegionProfile where
  region_id : ℕ
  base_population : ℝ
  base_medical_facilities : ℝ
  base_urbanization : ℝ
  base_education_level : ℝ
  base_income_level : ℝ

/-- The `regions` DataFrame row for 0-based region index `i` out of `n`:
`region_id = i + 1`, and the five base attributes drawn by the five
`np.random.uniform(·, ·, n_regions)` calls, which consume the global
stream in five consecutive blocks of `n` values. -/
noncomputable def regionProfile (r : ℕ → ℝ) (n i : ℕ) : RegionProfile where
  region_id := i + 1
  base_population := unif 100000 5000000 (r i)
  base_medical_facilities := unif 10 100 (r (n + i))
  base_urbanization := unif 0.2 0.9 (r (2 * n + i))
  base_education_level := unif 0.4 0.9 (r (3 * n + i))
  base_income_level := unif 20000 100000 (r (4 * n + i))

/-- Index into the draw stream of the first of the 7 per-row draws for
date index `d` and region index `i` (the 5 profile blocks come first,
and the loop is date-major, region-minor). -/
def rowBase (n d i : ℕ) : ℕ := 5 * n + 7 * (d * n + i)

/-- The unrounded (float) values computed inside the loop body of
`generate_medical_data` for date index `d` and region index `i`, before
any `int()` truncation or `round()` is applied when the row is stored. -/
structure RawObs where
  population : ℝ
  medical_facilities : ℝ
  urbanization : ℝ
  education_level : ℝ
  income_level : ℝ
  medical_staff : ℝ
  elderly_population : ℝ
  awareness_index : ℝ
  accessibility_score : ℝ
  vaccination_rate : ℝ

/-- Loop body of `generate_medical_data` (lines 63-93): the seven random
draws happen in source order at stream positions `rowBase n d i + 0..6`. -/
noncomputable def rawValues (r : ℕ → ℝ) (n d i : ℕ) : RawObs :=
  let p := regionProfile r n i
  let b := rowBase n d i
  let sf := seasonal d
  let population := p.base_population * (1 + normal 0 0.001 (r b))
  let medical_facilities := p.base_medical_facilities * sf
  let urbanization := p.base_urbanization + normal 0 0.01 (r (b + 1))
  let education_level := p.base_education_level + normal 0 0.01 (r (b + 2))
  let income_level := p.base_income_level * sf
  let medical_staff := medical_facilities * unif 5 15 (r (b + 3))
  let elderly_population := unif 0.1 0.3 (r (b + 4))
  let awareness_index := (education_level * 0.6 + urbanization * 0.4) + normal 0 0.05 (r (b + 5))
  let accessibility_score :=
    (medical_facilities / population * 100000 * 0.7 + urbanization * 0.3) + normal 0 0.05 (r (b + 6))
  let base_vaccination :=
    awareness_index * 0.3 + accessibility_score * 0.3 + education_level * 0.2 +
      (income_level / 100000) * 0.2
  let vaccination_rate := clip (base_vaccination * 100) 0 100
  { population := population
    medical_facilities := medical_facilities
    urbanization := urbanization
    education_level := education_level
    income_level := income_level
    medical_staff := medical_staff
    elderly_population := elderly_population
    awareness_index := awareness_index
    accessibility_score := accessibility_score
    vaccination_rate := vaccination_rate }

/-- One stored row of the generated DataFrame.  `date` is the number of
days after 2023-01-01 (the hard-coded `pd.date_range` start). -/
structure Observation where
  date : ℕ
  region_id : ℕ
  population : ℤ
  medical_facilities : ℤ
  medical_staff : ℤ
  vaccination_rate : ℝ
  awareness_index : ℝ
  accessibility_score : ℝ
  income_level : ℝ
  education_level : ℝ
  urbanization : ℝ
  elderly_population : ℝ

/-- The dict appended to `data` (lines 96-109): counts truncated with
`int()`, the remaining fields rounded to 2 or 3 decimal places. -/
noncomputable def mkObservation (r : ℕ → ℝ) (n d i : ℕ) : Observation :=
  let v := rawValues r n d i
  { date := d
    region_id := i + 1
    population := pyInt v.population
    medical_facilities := pyInt v.medical_facilities
    medical_staff := pyInt v.medical_staff
    vaccination_rate := pyRound v.vaccination_rate 2
    awareness_index := pyRound v.awareness_index 3
    accessibility_score := pyRound v.accessibility_score 3
    income_level := pyRound v.income_level 2
    education_level := pyRound v.education_level 3
    urbanization := pyRound v.urbanization 3
    elderly_population := pyRound v.elderly_population 3 }

/-- The comparison used by `df.sort_values(['date', 'region_id'])`:
lexicographic on (date, region_id). -/
def obsLE (a b : Observation) : Bool :=
  decide (a.date < b.date) || (decide (a.date = b.date) && decide (a.region_id ≤ b.region_id))

/-- The `data` list built by the nested loops (date-major, region-minor). -/
noncomputable def panelRows (r : ℕ → ℝ) (n_regions days : ℕ) : List Observation :=
  (List.range days).flatMap fun d =>
    (List.range n_regions).map fun i => mkObservation r n_regions d i

/-- `generate_medical_data`: build all rows, then
`df.sort_values(['date', 'region_id'])`. -/
noncomputable def generate_medical_data (r : ℕ → ℝ) (n_regions days : ℕ) : List Observation :=
  (panelRows r n_regions days).mergeSort obsLE

/-- The parameter names of `generate_medical_data` in the source
(`def generate_medical_data(n_regions=50, days=365)`).  The function has
no seed, rng or start-date parameter: all randomness is drawn from the
process-wide numpy global state, and the start date is the hard-coded
`datetime(2023, 1, 1)`. -/
def generate_medical_data_params : List String := ["n_regions", "days"]

/-- The Python exceptions the generator can actually raise, plus the
`InvalidArgument` condition named by the specification (which the code
never raises: it performs no argument validation). -/
inductive PyError where
  | invalidArgument
  | keyError
  | valueError
deriving DecidableEq

/-- `generate_medical_data` including its failure behavior on malformed
counts, traced from the source: `pd.date_range(periods=days)` raises
`ValueError` for negative `days`; `np.random.uniform(.., n_regions)`
raises `ValueError` for negative `n_regions`; and when either count is
zero the row list is empty, so `pd.DataFrame([])` has no columns and
`df.sort_values(['date', 'region_id'])` raises `KeyError`. -/
noncomputable def generate_medical_data_run (r : ℕ → ℝ) (n_regions days : ℤ) :
    Except PyError (List Observation) :=
  if days < 0 then .error .valueError
  else if n_regions < 0 then .error .valueError
  else if n_regions = 0 ∨ days = 0 then .error .keyError
  else .ok (generate_medical_data r n_regions.toNat days.toNat)

/-! ## Analysis pipeline (`streamlit_app.py`) -/

/-- The nine numeric indicator columns (`numeric_cols` in the source). -/
inductive Feature where
  | vaccination_rate
  | medical_facilities
  | medical_staff
  | awareness_index
  | accessibility_score
  | income_level
  | education_level
  | urbanization
  | elderly_population
deriving DecidableEq

/-- The value of a numeric column in one row (integer counts are read
back as real numbers, as pandas does for arithmetic). -/
noncomputable def obsValue : Feature → Observation → ℝ
  | .vaccination_rate, o => o.vaccination_rate
  | .medical_facilities, o => (o.medical_facilities : ℝ)
  | .medical_staff, o => (o.medical_staff : ℝ)
  | .awareness_index, o => o.awareness_index
  | .accessibility_score, o => o.accessibility_score
  | .income_level, o => o.income_level
  | .education_level, o => o.education_level
  | .urbanization, o => o.urbanization
  | .elderly_population, o => o.elderly_population

/-- Boolean `≤` on ℕ, the key order used when sorting group keys. -/
def natLE (a b : ℕ) : Bool := decide (a ≤ b)

/-- The group keys of `df.groupby('region_id')`: the distinct region ids
of the frame, in ascending order (pandas sorts group keys by default). -/
def regionIds (p : List Observation) : List ℕ :=
  ((p.map fun o => o.region_id).dedup).mergeSort natLE

/-- The rows of one `groupby('region_id')` group. -/
def groupRows (p : List Observation) (k : ℕ) : List Observation :=
  p.filter fun o => o.region_id == k

/-- One column of a frame as a list of reals. -/
noncomputable def colVals (f : Feature) (rows : List Observation) : List ℝ :=
  rows.map (obsValue f)

/-- Arithmetic mean of a list (pandas `mean`). -/
noncomputable def listMean (v : List ℝ) : ℝ := v.sum / v.length

/-- Minimum of a list (pandas `min`; groups are never empty). -/
noncomputable def listMinD (v : List ℝ) : ℝ :=
  match v with
  | [] => 0
  | x :: xs => xs.foldl min x

/-- Maximum of a list (pandas `max`). -/
noncomputable def listMaxD (v : List ℝ) : ℝ :=
  match v with
  | [] => 0
  | x :: xs => xs.foldl max x

/-- pandas sample standard deviation (`ddof = 1`); `none` is the NaN it
returns for a group with fewer than two rows. -/
noncomputable def sampleStd (v : List ℝ) : Option ℝ :=
  if v.length < 2 then none
  else some (Real.sqrt ((v.map fun x => (x - listMean v) ^ 2).sum / ((v.length : ℝ) - 1)))

/-- The per-region statistics record produced by
`.agg(['mean', 'std', 'min', 'max'])`. -/
structure MetricStats where
  mean : ℝ
  std : Option ℝ
  min : ℝ
  max : ℝ

/-- `stats_df = filtered_df.groupby('region_id')[metric].agg(['mean',
'std', 'min', 'max']).round(2)` (lines 140-142): one entry per distinct
region id; on an empty frame, groupby yields no groups and the result is
empty — no exception is raised. -/
noncomputable def stats_df (f : Feature) (p : List Observation) : List (ℕ × MetricStats) :=
  (regionIds p).map fun k =>
    let v := colVals f (groupRows p k)
    (k, { mean := pyRound (listMean v) 2
          std := (sampleStd v).map fun s => pyRound s 2
          min := pyRound (listMinD v) 2
          max := pyRound (listMaxD v) 2 })

/-- Sum of squared deviations from the mean of a column. -/
noncomputable def ssdev (v : List ℝ) : ℝ := (v.map fun x => (x - listMean v) ^ 2).sum

/-- Sum of products of deviations of two equal-length columns. -/
noncomputable def sprod (v w : List ℝ) : ℝ :=
  ((v.zip w).map fun q => (q.1 - listMean v) * (q.2 - listMean w)).sum

/-- Modelled from the spec: `pandas.DataFrame.corr` (called on line 173 of
`streamlit_app.py`; the pandas implementation itself is not part of this
repository).  Per the spec, each entry is the standard Pearson
correlation of two columns, and a zero-variance column makes the entry
undefined: pandas reports it as NaN rather than raising, embedded here
as `none`. -/
noncomputable def corrEntry (v w : List ℝ) : Option ℝ :=
  if ssdev v = 0 ∨ ssdev w = 0 then none
  else some (sprod v w / Real.sqrt (ssdev v * ssdev w))

/-- `corr_matrix = filtered_df[numeric_cols].corr()` (line 173): the
full matrix of pairwise column correlations; a total function — entries
that are undefined are `none`, never an exception. -/
noncomputable def corr_matrix (p : List Observation) (cols : List Feature) :
    List (List (Option ℝ)) :=
  cols.map fun c1 => cols.map fun c2 => corrEntry (colVals c1 p) (colVals c2 p)

/-- `cluster_data = filtered_df.groupby('region_id')[cluster_features].mean()`
(line 271): one row per region holding the mean of each selected feature
over that region's filtered rows. -/
noncomputable def cluster_data (p : List Observation) (features : List Feature) :
    List (ℕ × List ℝ) :=
  (regionIds p).map fun k =>
    (k, features.map fun f => listMean (colVals f (groupRows p k)))

/-- Column `j` of a list of row vectors. -/
noncomputable def colOf (rows : List (List ℝ)) (j : ℕ) : List ℝ :=
  rows.map fun v => v.getD j 0

/-- Population variance (`ddof = 0`) of a column, as used by
`StandardScaler`. -/
noncomputable def popVar (v : List ℝ) : ℝ := listMean (v.map fun x => (x - listMean v) ^ 2)

/-- Modelled from the spec: the scale applied by
`sklearn.preprocessing.StandardScaler` (fit on line 289; sklearn itself
is not part of this repository).  Per the spec each feature is
standardized to zero mean and unit variance across regions; a constant
feature has scale 1 so that it maps to zero rather than dividing by 0. -/
noncomputable def scaleOf (v : List ℝ) : ℝ :=
  if popVar v = 0 then 1 else Real.sqrt (popVar v)

/-- Modelled from the spec: `scaler.fit_transform(cluster_data)` —
each coordinate is centered by its column mean and divided by its
column scale. -/
noncomputable def standardize (rows : List (List ℝ)) : List (List ℝ) :=
  rows.map fun v =>
    (List.range v.length).map fun j =>
      (v.getD j 0 - listMean (colOf rows j)) / scaleOf (colOf rows j)

/-- Squared Euclidean distance between two feature vectors. -/
noncomputable def sqdist (a b : List ℝ) : ℝ :=
  ((a.zip b).map fun q => (q.1 - q.2) ^ 2).sum

/-- Fold keeping the indexed centroid of least squared distance,
preferring the earlier (lower-index) centroid on ties. -/
noncomputable def nearestAux (x : List ℝ) : List (ℕ × List ℝ) → ℕ × ℝ → ℕ × ℝ
  | [], best => best
  | c :: rest, best =>
      nearestAux x rest (if sqdist c.2 x < best.2 then (c.1, sqdist c.2 x) else best)

/-- Index of the nearest centroid to `x` (ties broken by lowest index,
as the spec prescribes). -/
noncomputable def nearestIdx (cs : List (List ℝ)) (x : List ℝ) : ℕ :=
  match cs.enum with
  | [] => 0
  | c :: rest => (nearestAux x rest (c.1, sqdist c.2 x)).1

/-- Mean vector of a set of points, coordinate by coordinate. -/
noncomputable def meanVec (vs : List (List ℝ)) (dim : ℕ) : List ℝ :=
  (List.range dim).map fun j => listMean (vs.map fun v => v.getD j 0)

/-- One Lloyd iteration: assign every point to its nearest centroid,
then move each centroid to the mean of its assigned points (a centroid
with no assigned points is kept in place). -/
noncomputable def updateCentroids (points cs : List (List ℝ)) : List (List ℝ) :=
  let labels := points.map (nearestIdx cs)
  cs.enum.map fun jc =>
    let assigned := ((points.zip labels).filter fun q => q.2 == jc.1).map fun q => q.1
    if assigned.isEmpty then jc.2 else meanVec assigned jc.2.length

/-- Iterate Lloyd steps until the centroids stop changing or the
iteration cap is exhausted. -/
noncomputable def kmeansLoop : ℕ → List (List ℝ) → List (List ℝ) → List (List ℝ)
  | 0, cs, _ => cs
  | fuel + 1, cs, points =>
      let cs2 := updateCentroids points cs
      if cs2 = cs then cs else kmeansLoop fuel cs2 points

/-- Modelled from the spec: the seeded centroid initialization of
`sklearn.cluster.KMeans(random_state=42)` (sklearn itself is not part of
this repository).  Per the spec the initialization is an explicit
deterministic function of the seed: here the `k` starting centroids are
data points at positions derived from the seed. -/
noncomputable def kmeansInit (seed k : ℕ) (points : List (List ℝ)) : List (List ℝ) :=
  (List.range k).map fun j => points.getD ((seed + j) % max 1 points.length) []

/-- Modelled from the spec: `KMeans(n_clusters=k, random_state=seed)
.fit_predict(points)` — iterative centroid assignment from the seeded
initialization, capped at `maxIter` iterations, returning one cluster
label per point. -/
noncomputable def kmeans_fit_predict (seed maxIter k : ℕ) (points : List (List ℝ)) : List ℕ :=
  let cs := kmeansLoop maxIter (kmeansInit seed k points) points
  points.map (nearestIdx cs)

/-- The clustering pipeline of lines 271-296: per-region feature means,
standardization, then k-means with the hard-coded `random_state=42` and
sklearn's default iteration cap of 300; the result maps each region id
to its cluster label. -/
noncomputable def cluster_labels (p : List Observation) (features : List Feature) (k : ℕ) :
    List (ℕ × ℕ) :=
  let agg := cluster_data p features
  let scaled := standardize (agg.map fun q => q.2)
  (agg.map fun q => q.1).zip (kmeans_fit_predict 42 300 k scaled)

/-- A minimal concrete row used to evaluate the analysis operations on
explicit panels. -/
noncomputable def demoObs (rid : ℕ) (v : ℝ) : Observation where
  date := 0
  region_id := rid
  population := 0
  medical_facilities := 0
  medical_staff := 0
  vaccination_rate := v
  awareness_index := 0
  accessibility_score := 0
  income_level := 0
  education_level := 0
  urbanization := 0
  elderly_population := 0

/-- A two-row panel, both rows in region 1, with vaccination rates 0 and
1: its per-region mean (1/2) differs from its last observed value (1). -/
noncomputable def demoPanel : List Observation := [demoObs 1 0, demoObs 1 1]

/-! ## Structural lemmas about the generated panel -/

/-- A row key: `true` on rows with the given date offset and region id. -/
def hasKey (dd ii : ℕ) (o : Observation) : Bool := o.date == dd && o.region_id == ii

/-- Number of rows of a panel carrying a given (date, region_id) key. -/
def keyCount (P : List Observation) (dd ii : ℕ) : ℕ := P.countP (hasKey dd ii)

theorem mkObservation_date (r : ℕ → ℝ) (n d i : ℕ) : (mkObservation r n d i).date = d := rfl

theorem mkObservation_region_id (r : ℕ → ℝ) (n d i : ℕ) :
    (mkObservation r n d i).region_id = i + 1 := rfl

theorem panelRows_pairwise (r : ℕ → ℝ) (n days : ℕ) :
    (panelRows r n days).Pairwise fun a b => obsLE a b = true := by
  unfold panelRows
  rw [List.pairwise_flatMap]
  refine ⟨fun d _ => ?_, ?_⟩
  · rw [List.pairwise_map]
    refine (List.pairwise_lt_range n).imp ?_
    intro i j hij
    simp only [obsLE, mkObservation_date, mkObservation_region_id]
    simp
    omega
  · refine (List.pairwise_lt_range days).imp ?_
    intro d1 d2 h x hx y hy
    simp only [List.mem_map] at hx hy
    obtain ⟨i, -, rfl⟩ := hx
    obtain ⟨j, -, rfl⟩ := hy
    simp only [obsLE, mkObservation_date, mkObservation_region_id]
    simp [h]

theorem generate_eq_panelRows (r : ℕ → ℝ) (n days : ℕ) :
    generate_medical_data r n days = panelRows r n days :=
  List.mergeSort_of_sorted (panelRows_pairwise r n days)

theorem countP_range_succ_id (n k : ℕ) :
    (List.range n).countP (fun i => i + 1 == k) = if 1 ≤ k ∧ k ≤ n then 1 else 0 := by
  induction n with
  | zero =>
      simp only [List.range_zero, List.countP_nil]
      split_ifs <;> omega
  | succ n ih =>
      rw [List.range_succ, List.countP_append, ih]
      simp only [List.countP_cons, List.countP_nil, beq_iff_eq]
      split_ifs <;> omega

theorem sum_map_ite_range (days dd c : ℕ) :
    ((List.range days).map fun d => if d = dd then c else 0).sum = if dd < days then c else 0 := by
  induction days with
  | zero => simp
  | succ n ih =>
      rw [List.range_succ, List.map_append, List.sum_append, ih]
      simp only [List.map_cons, List.map_nil, List.sum_cons, List.sum_nil]
      split_ifs <;> omega

theorem keyCount_panelRows (r : ℕ → ℝ) (n days dd ii : ℕ) :
    keyCount (panelRows r n days) dd ii =
      if dd < days ∧ 1 ≤ ii ∧ ii ≤ n then 1 else 0 := by
  unfold keyCount panelRows
  rw [List.flatMap_def, List.countP_flatten, List.map_map]
  have hmap : ∀ d ∈ List.range days,
      (List.countP (hasKey dd ii) ∘ fun d => (List.range n).map fun i => mkObservation r n d i) d
        = if d = dd then (if 1 ≤ ii ∧ ii ≤ n then 1 else 0) else 0 := by
    intro d _
    simp only [Function.comp]
    rw [List.countP_map]
    by_cases h : d = dd
    · subst h
      rw [if_pos rfl, ← countP_range_succ_id n ii]
      apply List.countP_congr
      intro i _
      simp [hasKey, mkObservation_date, mkObservation_region_id]
    · rw [if_neg h]
      rw [List.countP_eq_zero]
      intro i _
      simp [hasKey, mkObservation_date, mkObservation_region_id]
      intro hc
      exact absurd hc h
  rw [List.map_congr_left hmap, sum_map_ite_range]
  split_ifs <;> omega

theorem panelRows_length (r : ℕ → ℝ) (n days : ℕ) :
    (panelRows r n days).length = days * n := by
  unfold panelRows
  rw [List.flatMap_def, List.length_flatten, List.map_map]
  have : (List.length ∘ fun d => (List.range n).map fun i => mkObservation r n d i)
      = fun _ => n := by
    funext d
    simp
  rw [this, List.map_const', List.sum_const_nat, List.length_range]

theorem mem_panelRows {r : ℕ → ℝ} {n days : ℕ} {o : Observation} :
    o ∈ panelRows r n days ↔ ∃ d i, d < days ∧ i < n ∧ o = mkObservation r n d i := by
  unfold panelRows
  constructor
  · intro h
    simp only [List.mem_flatMap, List.mem_map, List.mem_range] at h
    obtain ⟨d, hd, i, hi, rfl⟩ := h
    exact ⟨d, i, hd, hi, rfl⟩
  · rintro ⟨d, i, hd, hi, rfl⟩
    simp only [List.mem_flatMap, List.mem_map, List.mem_range]
    exact ⟨d, hd, i, hi, rfl⟩

/-! ## Claim theorems: panel shape, determinism, argument validation -/

/-- Claim C1: for every `n_regions ≥ 1` and `days ≥ 1`, the generated
panel has exactly `n_regions * days` rows, exactly one row per
(date, region_id) pair over the date range and region ids `1..n_regions`
with no duplicates and no stray keys, and it is sorted primarily by date
and secondarily by region_id. -/
theorem generate_panel_shape (r : ℕ → ℝ) (n days : ℕ) (hn : 1 ≤ n) (hd : 1 ≤ days) :
    (generate_medical_data r n days).length = n * days ∧
    (∀ dd ii, dd < days → 1 ≤ ii → ii ≤ n →
      keyCount (generate_medical_data r n days) dd ii = 1) ∧
    (∀ o ∈ generate_medical_data r n days,
      o.date < days ∧ 1 ≤ o.region_id ∧ o.region_id ≤ n) ∧
    (generate_medical_data r n days).Pairwise (fun a b => obsLE a b = true) := by
  rw [generate_eq_panelRows]
  refine ⟨by rw [panelRows_length]; ring, fun dd ii h1 h2 h3 => ?_, fun o ho => ?_,
    panelRows_pairwise r n days⟩
  · rw [keyCount_panelRows]
    simp [h1, h2, h3]
  · obtain ⟨d, i, hd2, hi2, rfl⟩ := mem_panelRows.mp ho
    simp only [mkObservation_date, mkObservation_region_id]
    omega

theorem generate_panel_shape_witness :
    (generate_medical_data (fun _ => 0) 2 3).length = 2 * 3 ∧
    keyCount (generate_medical_data (fun _ => 0) 2 3) 1 2 = 1 :=
  ⟨(generate_panel_shape (fun _ => 0) 2 3 (by norm_num) (by norm_num)).1,
   (generate_panel_shape (fun _ => 0) 2 3 (by norm_num) (by norm_num)).2.1 1 2
     (by norm_num) (by norm_num) (by norm_num)⟩

/-- Claim C2 (counterexample): `generate_medical_data` takes only
`n_regions` and `days`; there is no caller-supplied seed or randomness
parameter — the randomness comes from the process-wide implicit numpy
global state. -/
theorem generate_no_seed_param :
    "seed" ∉ generate_medical_data_params ∧
    "random_state" ∉ generate_medical_data_params ∧
    "rng" ∉ generate_medical_data_params ∧
    generate_medical_data_params = ["n_regions", "days"] := by
  refine ⟨?_, ?_, ?_, rfl⟩ <;> decide

/-- Claim C2 (amended): the generator is a deterministic pure function
of its arguments and of the state of the global random stream: two runs
that read identical values from the stream produce identical panels.
The stream, however, is process-wide implicit state, not a caller-passed
seed (see the counterexample). -/
theorem generate_deterministic (r1 r2 : ℕ → ℝ) (n days : ℕ) (h : ∀ k, r1 k = r2 k) :
    generate_medical_data r1 n days = generate_medical_data r2 n days := by
  have : r1 = r2 := funext h
  rw [this]

theorem generate_deterministic_witness :
    generate_medical_data (fun _ => 0) 2 3 = generate_medical_data (fun _ => 0) 2 3 :=
  generate_deterministic (fun _ => 0) (fun _ => 0) 2 3 (fun _ => rfl)

/-- Claim C3 (counterexample): `generate_medical_data(n_regions=0, ...)`
does fail, but with a pandas `KeyError` (sorting an empty, column-less
frame), not with an `InvalidArgument` validation error — the code
performs no argument validation. -/
theorem generate_zero_regions_keyerror :
    generate_medical_data_run (fun _ => 0) 0 5 = Except.error PyError.keyError ∧
    generate_medical_data_run (fun _ => 0) 0 5 ≠ Except.error PyError.invalidArgument := by
  have h : generate_medical_data_run (fun _ => 0) 0 5 = Except.error PyError.keyError := by
    unfold generate_medical_data_run
    norm_num
  exact ⟨h, by rw [h]; simp⟩

/-- Claim C3 (amended): whenever `n_regions < 1` or `days < 1` the call
fails — no panel is returned — but the failure is an incidental
`ValueError` (negative counts) or `KeyError` (zero counts), never the
`InvalidArgument` error the specification names. -/
theorem generate_invalid_args_fail (r : ℕ → ℝ) (n days : ℤ) (h : n < 1 ∨ days < 1) :
    ∃ e : PyError, generate_medical_data_run r n days = Except.error e ∧
      e ≠ PyError.invalidArgument := by
  unfold generate_medical_data_run
  split_ifs with h1 h2 h3
  · exact ⟨PyError.valueError, rfl, by simp⟩
  · exact ⟨PyError.valueError, rfl, by simp⟩
  · exact ⟨PyError.keyError, rfl, by simp⟩
  · omega

theorem generate_invalid_args_fail_witness :
    ∃ e : PyError, generate_medical_data_run (fun _ => 0) 0 5 = Except.error e ∧
      e ≠ PyError.invalidArgument :=
  generate_invalid_args_fail (fun _ => 0) 0 5 (by norm_num)

/-- Claim C5 (counterexample): `generate_medical_data` has no
`start_date` parameter; the start of the date range is the hard-coded
`datetime(2023, 1, 1)` in the source. -/
theorem generate_no_start_date_param :
    "start_date" ∉ generate_medical_data_params ∧
    generate_medical_data_params = ["n_regions", "days"] := by
  refine ⟨?_, rfl⟩
  decide

/-- Claim C5 (amended): the dates of the panel are exactly the `days`
consecutive calendar days starting at the fixed date 2023-01-01 (the
`date` field counts days after 2023-01-01): every offset `0..days-1`
occurs and no other. -/
theorem generate_dates_fixed_start (r : ℕ → ℝ) (n days : ℕ) (hn : 1 ≤ n) :
    ∀ dd, (∃ o ∈ generate_medical_data r n days, o.date = dd) ↔ dd < days := by
  intro dd
  rw [generate_eq_panelRows]
  constructor
  · rintro ⟨o, ho, rfl⟩
    obtain ⟨d, i, hd, hi, rfl⟩ := mem_panelRows.mp ho
    simpa [mkObservation_date] using hd
  · intro hdd
    exact ⟨mkObservation r n dd 0, mem_panelRows.mpr ⟨dd, 0, hdd, by omega, rfl⟩, rfl⟩

theorem generate_dates_fixed_start_witness :
    ∃ o ∈ generate_medical_data (fun _ => 0) 1 3, o.date = 2 :=
  (generate_dates_fixed_start (fun _ => 0) 1 3 (by norm_num) 2).mpr (by norm_num)

/-- Claim C9: the region ids of the panel are exactly the integers
`1..n_regions`: each appears exactly once per date, no id outside that
range appears, and every row is the row synthesized from the region
profile carrying its `region_id`. -/
theorem region_ids_exact (r : ℕ → ℝ) (n days dd : ℕ) (hdd : dd < days) :
    (∀ ii, 1 ≤ ii → ii ≤ n → keyCount (generate_medical_data r n days) dd ii = 1) ∧
    (∀ ii, ¬(1 ≤ ii ∧ ii ≤ n) → keyCount (generate_medical_data r n days) dd ii = 0) ∧
    (∀ o ∈ generate_medical_data r n days, 1 ≤ o.region_id ∧ o.region_id ≤ n ∧
      ∃ i < n, o.region_id = (regionProfile r n i).region_id ∧
        o = mkObservation r n o.date i) := by
  rw [generate_eq_panelRows]
  refine ⟨fun ii h1 h2 => ?_, fun ii h0 => ?_, fun o ho => ?_⟩
  · rw [keyCount_panelRows]
    simp [hdd, h1, h2]
  · rw [keyCount_panelRows]
    simp only [ite_eq_right_iff]
    intro hc
    exact absurd ⟨hc.2.1, hc.2.2⟩ h0
  · obtain ⟨d, i, hd, hi, rfl⟩ := mem_panelRows.mp ho
    refine ⟨by simp [mkObservation_region_id], by simp [mkObservation_region_id]; omega,
      i, hi, rfl, by rw [mkObservation_date]⟩

theorem region_ids_exact_witness :
    keyCount (generate_medical_data (fun _ => 0) 2 3) 1 2 = 1 ∧
    keyCount (generate_medical_data (fun _ => 0) 2 3) 1 3 = 0 :=
  ⟨(region_ids_exact (fun _ => 0) 2 3 1 (by norm_num)).1 2 (by norm_num) (by norm_num),
   (region_ids_exact (fun _ => 0) 2 3 1 (by norm_num)).2.1 3 (by omega)⟩

/-! ## Value-range lemmas -/

theorem clip_mem {x lo hi : ℝ} (h : lo ≤ hi) : lo ≤ clip x lo hi ∧ clip x lo hi ≤ hi := by
  unfold clip
  exact ⟨le_min h (le_max_left lo x), min_le_left _ _⟩

theorem pyRound2_mem_Icc {x : ℝ} (h0 : 0 ≤ x) (h1 : x ≤ 100) :
    0 ≤ pyRound x 2 ∧ pyRound x 2 ≤ 100 := by
  have hb : (0 : ℤ) ≤ rhe (x * 10 ^ 2) ∧ rhe (x * 10 ^ 2) ≤ 10000 := by
    unfold rhe
    split_ifs with hf
    · rw [round_eq]
      have h2 : 0 ≤ ⌊x * 10 ^ 2 / 2 + 1 / 2⌋ := Int.floor_nonneg.mpr (by norm_num; linarith)
      have h3 : ⌊x * 10 ^ 2 / 2 + 1 / 2⌋ < 5001 := by
        rw [Int.floor_lt]
        push_cast
        norm_num
        linarith
      omega
    · rw [round_eq]
      have h2 : 0 ≤ ⌊x * 10 ^ 2 + 1 / 2⌋ := Int.floor_nonneg.mpr (by norm_num; linarith)
      have h3 : ⌊x * 10 ^ 2 + 1 / 2⌋ < 10001 := by
        rw [Int.floor_lt]
        push_cast
        norm_num
        linarith
      omega
  unfold pyRound
  constructor
  · apply div_nonneg _ (by norm_num)
    exact_mod_cast hb.1
  · rw [div_le_iff₀ (by norm_num)]
    calc (rhe (x * 10 ^ 2) : ℝ) ≤ 10000 := by exact_mod_cast hb.2
      _ = 100 * 10 ^ 2 := by norm_num

/-- Claim C4: in every generated panel, for every row and for any state
of the random stream, the stored `vaccination_rate` lies in
`[0, 100]` inclusive — `np.clip` bounds the raw value and rounding to
two decimals preserves the bounds. -/
theorem vaccination_rate_in_range (r : ℕ → ℝ) (n days : ℕ) (o : Observation)
    (ho : o ∈ generate_medical_data r n days) :
    0 ≤ o.vaccination_rate ∧ o.vaccination_rate ≤ 100 := by
  rw [generate_eq_panelRows] at ho
  obtain ⟨d, i, -, -, rfl⟩ := mem_panelRows.mp ho
  obtain ⟨y, hy⟩ : ∃ y, (rawValues r n d i).vaccination_rate = clip y 0 100 := ⟨_, rfl⟩
  have h2 : (mkObservation r n d i).vaccination_rate
      = pyRound ((rawValues r n d i).vaccination_rate) 2 := rfl
  rw [h2, hy]
  exact pyRound2_mem_Icc (clip_mem (by norm_num)).1 (clip_mem (by norm_num)).2

theorem vaccination_rate_in_range_witness :
    0 ≤ (mkObservation (fun _ => 0) 1 0 0).vaccination_rate ∧
    (mkObservation (fun _ => 0) 1 0 0).vaccination_rate ≤ 100 :=
  vaccination_rate_in_range (fun _ => 0) 1 1 _ (by
    rw [generate_eq_panelRows]
    exact mem_panelRows.mpr ⟨0, 0, by norm_num, by norm_num, rfl⟩)

/-! ## Rounding happens only at storage time (claim C10) -/

/-- A concrete random stream making the base facility level land on the
non-integer value 10.5 (all other draws are 0). -/
noncomputable def demoStream : ℕ → ℝ := fun k => if k = 1 then 1 / 180 else 0

theorem dayOfYear_364 : dayOfYear 364 = 365 := by
  unfold dayOfYear
  rw [dayOfYearFrom.eq_def]
  norm_num [yearLength, isLeap]

theorem seasonal_364 : seasonal 364 = 1 := by
  unfold seasonal
  rw [dayOfYear_364]
  have h : 2 * Real.pi * ((365 : ℕ) : ℝ) / 365 = 2 * Real.pi := by
    push_cast
    ring
  rw [h, Real.sin_two_pi]
  ring

/-- Claim C10: within the synthesis of one observation the derived
indicators are computed from the exact unrounded `medical_facilities`
and `population` values, and `int()` truncation / decimal rounding are
applied only when the row is stored.  The first block equates every
stored column with the corresponding formula over the raw values; the
final inequality exhibits a concrete run in which truncating
`medical_facilities` before the staffing formula would change the
stored `medical_staff`, showing the stored integer is not the input. -/
theorem derived_from_unrounded (r : ℕ → ℝ) (n d i : ℕ) :
    ((mkObservation r n d i).population = pyInt ((rawValues r n d i).population) ∧
     (mkObservation r n d i).medical_facilities =
       pyInt ((rawValues r n d i).medical_facilities) ∧
     (mkObservation r n d i).medical_staff =
       pyInt ((rawValues r n d i).medical_facilities * unif 5 15 (r (rowBase n d i + 3))) ∧
     (mkObservation r n d i).accessibility_score =
       pyRound (((rawValues r n d i).medical_facilities / (rawValues r n d i).population
         * 100000 * 0.7 + (rawValues r n d i).urbanization * 0.3)
         + normal 0 0.05 (r (rowBase n d i + 6))) 3 ∧
     (mkObservation r n d i).vaccination_rate =
       pyRound (clip (((rawValues r n d i).awareness_index * 0.3
         + (rawValues r n d i).accessibility_score * 0.3
         + (rawValues r n d i).education_level * 0.2
         + (rawValues r n d i).income_level / 100000 * 0.2) * 100) 0 100) 2) ∧
    pyInt ((rawValues demoStream 1 364 0).medical_facilities
        * unif 5 15 (demoStream (rowBase 1 364 0 + 3)))
      ≠ pyInt ((pyInt ((rawValues demoStream 1 364 0).medical_facilities) : ℝ)
        * unif 5 15 (demoStream (rowBase 1 364 0 + 3))) := by
  refine ⟨⟨rfl, rfl, rfl, rfl, rfl⟩, ?_⟩
  have hmf : (rawValues demoStream 1 364 0).medical_facilities = 10.5 := by
    have h : (rawValues demoStream 1 364 0).medical_facilities
        = unif 10 100 (demoStream (1 + 0)) * seasonal 364 := rfl
    rw [h, seasonal_364]
    norm_num [demoStream, unif]
  have hu : unif 5 15 (demoStream (rowBase 1 364 0 + 3)) = 5 := by
    norm_num [demoStream, unif, rowBase]
  rw [hmf, hu]
  norm_num [pyInt]

/-! ## Analysis claims: groupby statistics, correlation, clustering -/

theorem mem_regionIds {p : List Observation} {k : ℕ} :
    k ∈ regionIds p ↔ k ∈ p.map fun o => o.region_id := by
  unfold regionIds
  rw [List.mem_mergeSort, List.mem_dedup]

theorem regionIds_nodup (p : List Observation) : (regionIds p).Nodup := by
  unfold regionIds
  exact ((List.mergeSort_perm _ _).nodup_iff).mpr (List.nodup_dedup _)

theorem regionIds_ne_nil {p : List Observation} (hp : p ≠ []) : regionIds p ≠ [] := by
  obtain ⟨o, t, rfl⟩ := List.exists_cons_of_ne_nil hp
  have h : o.region_id ∈ regionIds (o :: t) := mem_regionIds.mpr (by simp)
  exact List.ne_nil_of_mem h

/-- Claim C7: a zero-variance column does not make the correlation
computation raise: every matrix entry involving it is the explicit
undefined marker `none` — in particular it is not the value `some 0` —
and the matrix itself is always produced, with one row per requested
column. -/
theorem corr_zero_variance_undefined (p : List Observation) (c c2 : Feature)
    (cols : List Feature) (hvar : ssdev (colVals c p) = 0) :
    corrEntry (colVals c p) (colVals c2 p) = none ∧
    corrEntry (colVals c2 p) (colVals c p) = none ∧
    corrEntry (colVals c p) (colVals c2 p) ≠ some 0 ∧
    (corr_matrix p cols).length = cols.length := by
  refine ⟨?_, ?_, ?_, by simp [corr_matrix]⟩
  · simp [corrEntry, hvar]
  · simp [corrEntry, hvar]
  · simp [corrEntry, hvar]

theorem corr_zero_variance_undefined_witness :
    corrEntry (colVals Feature.vaccination_rate [demoObs 1 5, demoObs 2 5])
      (colVals Feature.awareness_index [demoObs 1 5, demoObs 2 5]) = none :=
  (corr_zero_variance_undefined [demoObs 1 5, demoObs 2 5] Feature.vaccination_rate
    Feature.awareness_index [Feature.vaccination_rate, Feature.awareness_index]
    (by norm_num [ssdev, colVals, obsValue, demoObs, listMean])).1

/-- Claim C8 (counterexample): invoked on a panel with zero rows,
`stats_df` does not fail with an EmptyInput error — `groupby` simply
yields no groups and the empty mapping is returned. -/
theorem stats_df_empty_returns_empty :
    stats_df Feature.vaccination_rate [] = [] := by
  simp [stats_df, regionIds]

/-- Claim C8 (amended): on a non-empty panel, `stats_df` returns a
non-empty mapping with exactly one entry per distinct region id of the
panel (keys sorted, no duplicates), each entry carrying the rounded
mean, sample standard deviation, minimum and maximum of the metric over
that region's rows; on an empty panel it returns the empty mapping
rather than failing. -/
theorem stats_df_per_region (f : Feature) (p : List Observation) (hp : p ≠ []) :
    (stats_df f p).map Prod.fst = regionIds p ∧
    stats_df f p ≠ [] ∧
    ((stats_df f p).map Prod.fst).Nodup ∧
    (∀ k, k ∈ (stats_df f p).map Prod.fst ↔ ∃ o ∈ p, o.region_id = k) ∧
    ∀ e ∈ stats_df f p,
      e.2.mean = pyRound (listMean (colVals f (groupRows p e.1))) 2 ∧
      e.2.std = (sampleStd (colVals f (groupRows p e.1))).map (fun s => pyRound s 2) ∧
      e.2.min = pyRound (listMinD (colVals f (groupRows p e.1))) 2 ∧
      e.2.max = pyRound (listMaxD (colVals f (groupRows p e.1))) 2 := by
  have hmap : (stats_df f p).map Prod.fst = regionIds p := by
    unfold stats_df
    rw [List.map_map]
    exact (List.map_congr_left fun k _ => rfl).trans (List.map_id _)
  refine ⟨hmap, ?_, by rw [hmap]; exact regionIds_nodup p, ?_, ?_⟩
  · intro hc
    exact (regionIds_ne_nil hp) (by rw [← hmap, hc]; rfl)
  · intro k
    rw [hmap, mem_regionIds, List.mem_map]
  · intro e he
    unfold stats_df at he
    rw [List.mem_map] at he
    obtain ⟨kk, hkk, rfl⟩ := he
    exact ⟨rfl, rfl, rfl, rfl⟩

theorem stats_df_per_region_witness :
    (stats_df Feature.vaccination_rate demoPanel).map Prod.fst = regionIds demoPanel :=
  (stats_df_per_region Feature.vaccination_rate demoPanel (by simp [demoPanel])).1

/-- Claim C6: the clustering pipeline first reduces the panel to one row
per region holding the mean of each feature over the region's filtered
rows (the last conjunct exhibits a panel where that mean differs from
the last observed value), standardizes, and runs k-means with the
hard-coded seed 42, so the pipeline is a pure function: two invocations
on the same filtered panel and `k` yield identical labels, one label per
region id. -/
theorem cluster_pipeline_spec (p : List Observation) (features : List Feature) (k : ℕ) :
    (∀ q ∈ cluster_data p features,
       q.2 = features.map fun f =>
         ((groupRows p q.1).map (obsValue f)).sum / ((groupRows p q.1).length : ℝ)) ∧
    cluster_labels p features k =
      ((cluster_data p features).map fun q => q.1).zip
        (kmeans_fit_predict 42 300 k
          (standardize ((cluster_data p features).map fun q => q.2))) ∧
    (cluster_labels p features k).map Prod.fst = regionIds p ∧
    (∀ p2 : List Observation, p = p2 →
      cluster_labels p features k = cluster_labels p2 features k) ∧
    listMean (colVals Feature.vaccination_rate (groupRows demoPanel 1)) ≠
      (colVals Feature.vaccination_rate (groupRows demoPanel 1)).getLastD 0 := by
  refine ⟨?_, rfl, ?_, ?_, ?_⟩
  · intro q hq
    unfold cluster_data at hq
    rw [List.mem_map] at hq
    obtain ⟨kk, hkk, rfl⟩ := hq
    apply List.map_congr_left
    intro f _
    simp [listMean, colVals]
  · have hlen : ((cluster_data p features).map fun q => q.1).length ≤
        (kmeans_fit_predict 42 300 k
          (standardize ((cluster_data p features).map fun q => q.2))).length := by
      simp [kmeans_fit_predict, standardize]
    unfold cluster_labels
    rw [List.map_fst_zip _ _ hlen]
    unfold cluster_data
    rw [List.map_map]
    exact (List.map_congr_left fun k _ => rfl).trans (List.map_id _)
  · intro p2 h
    rw [h]
  · norm_num [groupRows, demoPanel, demoObs, colVals, obsValue, listMean]

theorem cluster_pipeline_spec_witness :
    (cluster_labels demoPanel [Feature.vaccination_rate] 2).map Prod.fst =
      regionIds demoPanel :=
  (cluster_pipeline_spec demoPanel [Feature.vaccination_rate] 2).2.2.1

end MedicalData
